import Mathlib

/-!
Verification of the core scheduling/planning algorithms of the
Spanish-learning-project repository.

Shallow embedding conventions:
* `src/state/fsrs.py` works on Python floats and `datetime` values; it is
  embedded over `ℝ`, with all timestamps measured in days (the source always
  converts differences to days via `total_seconds() / 86400` before use).
  The weight table parameter `w` is fixed to `DEFAULT_W`, the only table the
  repository ever passes.
* `src/state/session_planner.py` performs only field arithmetic, comparisons
  and list processing; it is embedded over `ℚ` so that every definition is
  executable and decidable.  Database reads (`get_strand_balance` rows,
  frontier / due / mastered pools) are the external-collaborator boundary of
  the spec and enter as explicit arguments.
* Python functions that `raise ValueError` are embedded as `Except`-valued
  functions returning a typed error.
-/

namespace SpanishSRS

/-! ## FSRS memory model (`src/state/fsrs.py`)

This section is `noncomputable` because the source formulas use the
transcendental functions `exp`, `log` and real exponentiation. -/

noncomputable section FsrsModel

/-- `DEFAULT_W` from `src/state/fsrs.py` (lines 35-53): the 17 FSRS weight
parameters. -/
def DEFAULT_W : List ℝ :=
  [0.4, 0.6, 2.4, 5.8, 4.93, 0.94, 0.86, 0.01, 1.49, 0.14, 0.94, 2.18,
   0.05, 0.34, 1.26, 0.29, 2.61]

/-- `w[i]` access into `DEFAULT_W`. -/
def W (i : ℕ) : ℝ := DEFAULT_W.getD i 0

/-- `ReviewCard` dataclass: a card's state in the SRS system.
`last_review` timestamps are reals measured in days (`none` = Python `None`). -/
structure ReviewCard where
  stability : ℝ
  difficulty : ℝ
  reps : ℕ
  last_review : Option ℝ := none

/-- `ReviewResult` dataclass: result of a review operation. -/
structure ReviewResult where
  stability : ℝ
  difficulty : ℝ
  next_review_date : ℝ
  retrievability : ℝ

/-- The two `ValueError` conditions raised by `fsrs.py`. -/
inductive FsrsError where
  | invalidQuality
  | invalidRetention
deriving DecidableEq

/-- Body of `initial_stability` after its range guard (lines 93-106). -/
def initial_stability_value (quality : ℤ) : ℝ :=
  if quality = 0 then 0.1
  else if quality ≤ 2 then W 0 * ((quality : ℝ) / 2)
  else if quality = 3 then W 2
  else W 2 + (W 3 - W 2) * ((quality : ℝ) - 3) / 2

/-- `initial_stability` (lines 74-106): initial stability for a new card,
rejecting quality outside 0-5. -/
def initial_stability (quality : ℤ) : Except FsrsError ℝ :=
  if 0 ≤ quality ∧ quality ≤ 5 then .ok (initial_stability_value quality)
  else .error .invalidQuality

/-- Body of `initial_difficulty` after its range guard (lines 129-134). -/
def initial_difficulty_value (quality : ℤ) : ℝ :=
  max 1 (min 10 (W 4 - W 10 * ((quality : ℝ) - 3)))

/-- `initial_difficulty` (lines 109-134). -/
def initial_difficulty (quality : ℤ) : Except FsrsError ℝ :=
  if 0 ≤ quality ∧ quality ≤ 5 then .ok (initial_difficulty_value quality)
  else .error .invalidQuality

/-- `calculate_retrievability` (lines 137-163):
`R = exp(ln 0.9 · elapsed / stability)` clamped to `[0,1]`, with `R = 0`
for non-positive stability. -/
def calculate_retrievability (elapsed_days stability : ℝ) : ℝ :=
  if stability ≤ 0 then 0
  else max 0 (min 1 (Real.exp (Real.log 0.9 * elapsed_days / stability)))

/-- Body of `update_stability` after its range guard (lines 198-234).
For `quality < 3` this is the lapse formula (floored at 0.1); otherwise the
success-growth formula with tier factor `w[7]/w[6]/w[5]`.  (The source also
computes a local `stability_increase` value at lines 218-223 that it never
uses; that dead binding is omitted.) -/
def update_stability_value (current_stability difficulty : ℝ) (quality : ℤ)
    (retrievability : ℝ) : ℝ :=
  if quality < 3 then
    max 0.1 (W 11 * difficulty ^ (-(W 12)) *
      ((current_stability + 1) ^ (W 13) - 1) *
      Real.exp ((1 - retrievability) * W 14))
  else
    let success_factor := if quality = 3 then W 7 else if quality = 4 then W 6 else W 5
    max 0.1 (current_stability * (1 +
      Real.exp (W 15) * (11 - difficulty) * current_stability ^ (-(W 13)) *
      (Real.exp ((1 - retrievability) * W 14) - 1) * success_factor))

/-- `update_stability` (lines 166-234). -/
def update_stability (current_stability difficulty : ℝ) (quality : ℤ)
    (retrievability : ℝ) : Except FsrsError ℝ :=
  if 0 ≤ quality ∧ quality ≤ 5 then
    .ok (update_stability_value current_stability difficulty quality retrievability)
  else .error .invalidQuality

/-- Body of `update_difficulty` after its range guard (lines 264-274). -/
def update_difficulty_value (current_difficulty : ℝ) (quality : ℤ) : ℝ :=
  max 1 (min 10 (current_difficulty - W 12 * ((quality : ℝ) - 3)))

/-- `update_difficulty` (lines 237-274). -/
def update_difficulty (current_difficulty : ℝ) (quality : ℤ) :
    Except FsrsError ℝ :=
  if 0 ≤ quality ∧ quality ≤ 5 then
    .ok (update_difficulty_value current_difficulty quality)
  else .error .invalidQuality

/-- Body of `calculate_next_review_date` after its retention guard
(lines 305-312): `now + max(1, stability · ln(retention)/ln(0.9))`. -/
def next_review_date_value (stability current_time request_retention : ℝ) : ℝ :=
  current_time + max 1 (stability * Real.log request_retention / Real.log 0.9)

/-- `calculate_next_review_date` (lines 277-312), rejecting a retention target
outside `(0,1)`.  `current_time` is an explicit argument (the source defaults
it to `datetime.now()`). -/
def calculate_next_review_date (stability current_time : ℝ)
    (request_retention : ℝ) : Except FsrsError ℝ :=
  if 0 < request_retention ∧ request_retention < 1 then
    .ok (next_review_date_value stability current_time request_retention)
  else .error .invalidRetention

/-- `review_card` (lines 315-393): the main review operation.  `review_time`
is an explicit argument in days (the source defaults it to `datetime.now()`).
The nested call to `calculate_next_review_date` uses the default retention
0.9, whose guard always passes, so the unguarded body is used directly. -/
def review_card (card : ReviewCard) (quality : ℤ) (review_time : ℝ) :
    Except FsrsError (ReviewCard × ReviewResult) :=
  if 0 ≤ quality ∧ quality ≤ 5 then
    let state :=
      if card.reps = 0 then
        (initial_stability_value quality, initial_difficulty_value quality, (1 : ℝ))
      else
        let elapsed_days :=
          match card.last_review with
          | none => 0
          | some lr => review_time - lr
        let retrievability := calculate_retrievability elapsed_days card.stability
        (update_stability_value card.stability card.difficulty quality retrievability,
         update_difficulty_value card.difficulty quality,
         retrievability)
    let new_stability := state.1
    let new_difficulty := state.2.1
    let retrievability := state.2.2
    let next_review := next_review_date_value new_stability review_time 0.9
    .ok ({ stability := new_stability, difficulty := new_difficulty,
           reps := card.reps + 1, last_review := some review_time },
         { stability := new_stability, difficulty := new_difficulty,
           next_review_date := next_review, retrievability := retrievability })
  else .error .invalidQuality

/-- Stability field of a successful review outcome (0 on error); projection
helper for stating closed facts about `review_card` outputs. -/
def result_stability (e : Except FsrsError (ReviewCard × ReviewResult)) : ℝ :=
  match e with
  | .ok p => p.2.stability
  | .error _ => 0

/-- `get_review_interval_days` (lines 396-413). -/
def get_review_interval_days (stability request_retention : ℝ) : ℝ :=
  stability * Real.log request_retention / Real.log 0.9

end FsrsModel

/-! ## Session planner (`src/state/session_planner.py`)

Everything below is executable over `ℚ`.  Database reads are modelled as
explicit list arguments: `get_strand_balance`'s SQL rows become a
`List (String × ℚ)` of `(strand, total_seconds)` pairs, and `plan_session`'s
frontier / due / mastered pools become `List Candidate` arguments. -/

/-- `TARGET_STRAND_PERCENTAGE` (line 22). -/
def TARGET_STRAND_PERCENTAGE : ℚ := 0.25

/-- `TOLERANCE_PERCENTAGE` (line 23). -/
def TOLERANCE_PERCENTAGE : ℚ := 0.05

/-- The four strands, in the order of the `strands` list at line 242. -/
inductive Strand where
  | meaning_input
  | meaning_output
  | language_focused
  | fluency
deriving DecidableEq, Repr

/-- The list `["meaning_input", "meaning_output", "language_focused", "fluency"]`. -/
def strandList : List Strand :=
  [.meaning_input, .meaning_output, .language_focused, .fluency]

/-- String tag of a strand, as used for dictionary keys in the source. -/
def strandName : Strand → String
  | .meaning_input => "meaning_input"
  | .meaning_output => "meaning_output"
  | .language_focused => "language_focused"
  | .fluency => "fluency"

/-- `StrandBalance` dataclass (lines 96-112). -/
structure StrandBalance where
  meaning_input : ℚ
  meaning_output : ℚ
  language_focused : ℚ
  fluency : ℚ
  total_exercises : ℕ
  total_seconds : ℚ
deriving DecidableEq, Repr

/-- `StrandBalance.get_percentage` (lines 106-108). -/
def StrandBalance.get_percentage (b : StrandBalance) : Strand → ℚ
  | .meaning_input => b.meaning_input
  | .meaning_output => b.meaning_output
  | .language_focused => b.language_focused
  | .fluency => b.fluency

/-- `StrandBalance.deviation_from_target` (lines 110-112). -/
def StrandBalance.deviation_from_target (b : StrandBalance) (s : Strand) : ℚ :=
  TARGET_STRAND_PERCENTAGE - b.get_percentage s

/-- Seconds accumulated for one strand by the loop at lines 196-199 of
`get_strand_balance`: the sum of the `seconds` of the query rows carrying
that strand's name (rows with unrecognized strand names are skipped). -/
def strand_seconds (rows : List (String × ℚ)) (s : Strand) : ℚ :=
  ((rows.filter fun r => r.1 = strandName s).map fun r => r.2).sum

/-- `total_seconds` accumulated by the same loop: only rows whose strand name
is one of the four recognized names contribute. -/
def total_practice_seconds (rows : List (String × ℚ)) : ℚ :=
  (strandList.map (strand_seconds rows)).sum

/-- `SessionPlanner.get_strand_balance` (lines 161-220), with the SQL query
result supplied as `rows`.  Zero total seconds yields the neutral 25%-each
cold-start balance; otherwise each strand's percentage is its share of the
total and `total_exercises` is the number of query rows. -/
def get_strand_balance (rows : List (String × ℚ)) : StrandBalance :=
  let total := total_practice_seconds rows
  if total = 0 then
    { meaning_input := 0.25, meaning_output := 0.25,
      language_focused := 0.25, fluency := 0.25,
      total_exercises := 0, total_seconds := 0 }
  else
    { meaning_input := strand_seconds rows .meaning_input / total,
      meaning_output := strand_seconds rows .meaning_output / total,
      language_focused := strand_seconds rows .language_focused / total,
      fluency := strand_seconds rows .fluency / total,
      total_exercises := rows.length, total_seconds := total }

/-- The tiered pressure weight computed for one strand by the loop at
lines 245-259 of `calculate_strand_weights`. -/
def system_weight (balance : StrandBalance) (s : Strand) : ℚ :=
  let deviation := balance.deviation_from_target s
  if |deviation| ≤ TOLERANCE_PERCENTAGE then 1
  else if |deviation| ≤ 0.10 then 1 + deviation * 2
  else 1 + deviation * 4

/-- A learner preference map: Python `dict[str, float] | None`, restricted to
the four strand keys (`calculate_strand_weights` ignores any other key). -/
def Preference := Option (Strand → Option ℚ)

/-- The weight of one strand after the defeasible learner-preference blend of
lines 261-267: `0.7·system + 0.3·preference` for strands present in the
preference map, the plain system weight otherwise. -/
def blended_weight (balance : StrandBalance) (pref : Preference) (s : Strand) : ℚ :=
  match pref with
  | none => system_weight balance s
  | some p =>
    match p s with
    | none => system_weight balance s
    | some user_weight => system_weight balance s * 0.7 + user_weight * 0.3

/-- `total = sum(weights.values())` at line 270. -/
def weight_total (balance : StrandBalance) (pref : Preference) : ℚ :=
  (strandList.map (blended_weight balance pref)).sum

/-- `SessionPlanner.calculate_strand_weights` (lines 222-273): tiered
rebalancing pressure, optional preference blend, then normalization of the
weights to sum 4.0 (`(v / total) * 4.0`). -/
def calculate_strand_weights (balance : StrandBalance) (pref : Preference)
    (s : Strand) : ℚ :=
  blended_weight balance pref s / weight_total balance pref * 4

/-- A candidate dict from the frontier / due-items / mastered pools.  Only the
keys the planner reads are modelled; `.get` accesses with possibly-missing
keys become `Option` fields.  `last_review` is only ever used for Python
truthiness, so it is kept as an optional string. -/
structure Candidate where
  node_id : String
  item_id : Option String := none
  primary_strand : Option String := none
  last_review : Option String := none
  stability : Option ℚ := none
deriving DecidableEq, Repr

/-- Python truthiness of a `last_review` value: `None` and the empty string
are falsy. -/
def truthy : Option String → Bool
  | none => false
  | some s => !(s = "")

/-- `Exercise` dataclass (lines 115-125). -/
structure Exercise where
  strand : String
  node_id : String
  item_id : Option String
  exercise_type : String
  duration_estimate_min : ℕ
  priority_score : ℚ
  instructions : String
  metadata : Candidate
deriving DecidableEq, Repr

/-- `SessionPlan` dataclass (lines 128-137).  The `session_date` field
(`datetime.now()` in the source) is the one impure field and is omitted. -/
structure SessionPlan where
  learner_id : String
  duration_target_minutes : ℚ
  exercises : List Exercise
  strand_balance : StrandBalance
  balance_status : String
  notes : String
deriving DecidableEq, Repr

/-- The `strand_candidates` dict built at lines 567-572 of `plan_session`:
per-strand candidate pools, with no filtering by strand tag. -/
def strand_candidates (frontier due_items mastered : List Candidate) :
    Strand → List Candidate
  | .meaning_input => frontier
  | .meaning_output => frontier ++ due_items
  | .language_focused => due_items ++ frontier
  | .fluency => mastered

/-- The `viable_strands` dict comprehension at lines 574-579: strands whose
candidate pool is non-empty. -/
def viable_strands (frontier due_items mastered : List Candidate) : List Strand :=
  strandList.filter fun s => (strand_candidates frontier due_items mastered s).length > 0

/-- `weight_sum = sum(viable_weights.values())` at line 600. -/
def viable_weight_sum (weights : Strand → ℚ) (viable : List Strand) : ℚ :=
  (viable.map weights).sum

/-- The `normalized_weights` dict of lines 601-611 read through
`normalized_weights.get(strand, 0)`: viable strands are renormalized to sum
4.0 when the viable weight sum is positive and receive the even share
otherwise; non-viable strands default to 0. -/
def normalized_weights (weights : Strand → ℚ) (viable : List Strand)
    (s : Strand) : ℚ :=
  if s ∈ viable then
    if viable_weight_sum weights viable > 0 then
      weights s / viable_weight_sum weights viable * 4
    else
      4 / viable.length
  else 0

/-- `target_time_per_strand` (lines 613-618):
`max(0, duration_minutes * (normalized_weight / 4.0))` for every strand. -/
def target_time_per_strand (weights : Strand → ℚ) (viable : List Strand)
    (duration_minutes : ℚ) (s : Strand) : ℚ :=
  max 0 (duration_minutes * (normalized_weights weights viable s / 4))

/-- Lexicographic comparison of the Python sort-key pairs `(ℤ, ℚ)` used by the
selection functions; `List.mergeSort` with this total preorder reproduces
Python's stable `list.sort(key=...)`. -/
def key_le (a b : ℤ × ℚ) : Bool :=
  a.1 < b.1 ∨ (a.1 = b.1 ∧ a.2 ≤ b.2)

/-- The greedy selection loop shared by all four `_select_*` functions:
walk the sorted candidates, stop as soon as `time_allocated ≥ target_time`,
otherwise emit the exercise and advance the clock by its duration. -/
def greedy_select (mk : Candidate → Exercise) (duration : ℚ) :
    List Candidate → ℚ → ℚ → List Exercise
  | [], _, _ => []
  | c :: rest, target_time, time_allocated =>
    if time_allocated ≥ target_time then []
    else mk c :: greedy_select mk duration rest target_time (time_allocated + duration)

/-- `SessionPlanner._select_meaning_input` (lines 671-716): filter to
candidates tagged `meaning_input`, sort new-items-first then by descending
stability, then greedily take 2-minute comprehension exercises. -/
def select_meaning_input (candidates : List Candidate) (target_time : ℚ) :
    List Exercise :=
  let input_candidates := candidates.filter fun c => c.primary_strand = some "meaning_input"
  let sorted := input_candidates.mergeSort fun a b =>
    key_le (if truthy a.last_review then 1 else 0, -(a.stability.getD 0))
           (if truthy b.last_review then 1 else 0, -(b.stability.getD 0))
  greedy_select
    (fun c =>
      { strand := "meaning_input", node_id := c.node_id, item_id := c.item_id,
        exercise_type := "comprehension", duration_estimate_min := 2,
        priority_score := 1,
        instructions := "Understand " ++ c.node_id ++ " in context",
        metadata := c })
    2 sorted target_time 0

/-- `SessionPlanner._select_meaning_output` (lines 718-764): filter to
candidates tagged `meaning_output`, sort due-items-first then by descending
stability, then greedily take 1-minute production exercises. -/
def select_meaning_output (candidates : List Candidate) (target_time : ℚ) :
    List Exercise :=
  let output_candidates := candidates.filter fun c => c.primary_strand = some "meaning_output"
  let sorted := output_candidates.mergeSort fun a b =>
    key_le (if truthy a.last_review then 0 else 1, -(a.stability.getD 0))
           (if truthy b.last_review then 0 else 1, -(b.stability.getD 0))
  greedy_select
    (fun c =>
      { strand := "meaning_output", node_id := c.node_id, item_id := c.item_id,
        exercise_type := "production", duration_estimate_min := 1,
        priority_score := 1,
        instructions := "Communicate using " ++ c.node_id,
        metadata := c })
    1 sorted target_time 0

/-- `SessionPlanner._select_language_focused` (lines 766-810). -/
def select_language_focused (candidates : List Candidate) (target_time : ℚ) :
    List Exercise :=
  let lfl_candidates := candidates.filter fun c => c.primary_strand = some "language_focused"
  let sorted := lfl_candidates.mergeSort fun a b =>
    key_le (if truthy a.last_review then 0 else 1, -(a.stability.getD 0))
           (if truthy b.last_review then 0 else 1, -(b.stability.getD 0))
  greedy_select
    (fun c =>
      { strand := "language_focused", node_id := c.node_id, item_id := c.item_id,
        exercise_type := "controlled_drill", duration_estimate_min := 1,
        priority_score := 1,
        instructions := "Practice " ++ c.node_id ++ " (focus on accuracy)",
        metadata := c })
    1 sorted target_time 0

/-- `SessionPlanner._select_fluency` (lines 812-844): no filtering or sorting,
greedy 1-minute speed drills over the mastered pool. -/
def select_fluency (candidates : List Candidate) (target_time : ℚ) :
    List Exercise :=
  greedy_select
    (fun c =>
      { strand := "fluency", node_id := c.node_id, item_id := c.item_id,
        exercise_type := "speed_drill", duration_estimate_min := 1,
        priority_score := 1,
        instructions := "Speed practice: " ++ c.node_id ++
          " (focus on fluency, not accuracy)",
        metadata := c })
    1 candidates target_time 0

/-- `SessionPlanner._assess_balance_status` (lines 846-859). -/
def assess_balance_status (balance : StrandBalance) : String :=
  let max_deviation := (strandList.map fun s => |balance.deviation_from_target s|).foldr max 0
  if max_deviation ≤ TOLERANCE_PERCENTAGE then "balanced"
  else if max_deviation ≤ 0.10 then "slight_imbalance"
  else "severe_imbalance"

/-- One-decimal rendering of a percentage, standing in for Python's
`f"{pct:.1f}"` in the session notes. -/
def format_pct (q : ℚ) : String :=
  let n : ℤ := round (q * 10)
  toString (n / 10) ++ "." ++ toString (n % 10).natAbs

/-- `SessionPlanner._generate_session_notes` (lines 861-892): distribution
report, top-2 emphasized strands above the 1.1 threshold, and per-strand
exercise counts (strands listed in first-occurrence order, as Python dict
insertion order does). -/
def generate_session_notes (balance : StrandBalance) (weights : Strand → ℚ)
    (exercises : List Exercise) : String :=
  let distribution := strandList.map fun s =>
    "  " ++ strandName s ++ ": " ++ format_pct (balance.get_percentage s * 100) ++ "%"
  let emphasized := (strandList.mergeSort fun a b => weights a ≥ weights b).take 2
  let emphasis := (emphasized.filter fun s => weights s > 1.1).map fun s =>
    "  " ++ strandName s ++ " (rebalancing)"
  let seen := (exercises.map fun e => e.strand).dedup
  let counts := seen.map fun s =>
    "  " ++ s ++ ": " ++ toString (exercises.filter fun e => e.strand = s).length ++
      " exercises"
  String.intercalate "\n"
    (["Recent strand distribution:"] ++ distribution ++
     ["\nThis session emphasizes:"] ++ emphasis ++
     ["\nExercises selected:"] ++ counts)

/-- The error `plan_session` can propagate: `calculate_strand_weights`'s
normalization at line 271 divides by the pre-normalization weight total, and
Python raises `ZeroDivisionError` when that total is 0. -/
inductive PlannerError where
  | zeroDivision
deriving DecidableEq, Repr

/-- `SessionPlanner.plan_session` (lines 537-669).  The strand balance and
the three candidate pools, which the source reads from its databases, are
explicit arguments; everything downstream of those reads is modelled
faithfully: weight calculation, strand viability, renormalization over viable
strands, per-strand time targets, and per-strand greedy selection.
Step 2 (line 558) calls `calculate_strand_weights` before the viability
check; its normalization divides by the pre-normalization weight total
(line 271), so when that total is 0 the Python function raises
`ZeroDivisionError` no matter what the pools hold — modelled as the error
branch here, since the field embedding of division alone cannot represent
the raise. -/
def plan_session (learner_id : String) (balance : StrandBalance)
    (learner_preference : Preference) (duration_minutes : ℚ)
    (frontier due_items mastered : List Candidate) :
    Except PlannerError SessionPlan :=
  if weight_total balance learner_preference = 0 then .error .zeroDivision
  else
  let weights := calculate_strand_weights balance learner_preference
  let viable := viable_strands frontier due_items mastered
  if viable = [] then
    .ok
    { learner_id := learner_id,
      duration_target_minutes := duration_minutes,
      exercises := [],
      strand_balance := balance,
      balance_status := assess_balance_status balance,
      notes := "No materials available for any strand" }
  else
    let target_time := target_time_per_strand weights viable duration_minutes
    let exercises :=
      select_meaning_input frontier (target_time .meaning_input) ++
      select_meaning_output (frontier ++ due_items) (target_time .meaning_output) ++
      select_language_focused (due_items ++ frontier) (target_time .language_focused) ++
      select_fluency mastered (target_time .fluency)
    .ok
    { learner_id := learner_id,
      duration_target_minutes := duration_minutes,
      exercises := exercises,
      strand_balance := balance,
      balance_status := assess_balance_status balance,
      notes := generate_session_notes balance weights exercises }

/-- The three mastery thresholds of `DEFAULT_MASTERY_CRITERIA`
(lines 26-30), as an explicit record. -/
structure MasteryCriteria where
  stability_days : ℚ
  min_reps : ℕ
  avg_quality : ℚ
deriving DecidableEq, Repr

/-- `DEFAULT_MASTERY_CRITERIA` (lines 26-30). -/
def DEFAULT_MASTERY_CRITERIA : MasteryCriteria :=
  { stability_days := 21, min_reps := 3, avg_quality := 3.5 }

/-- The classification decision of `update_mastery_status` (lines 938-950),
applied to an item's stability, rep count and rolling average quality (the
SQL fetch and the status write-back around it are the storage boundary). -/
def classify_mastery (criteria : MasteryCriteria) (stability : ℚ) (reps : ℕ)
    (avg_quality : ℚ) : String :=
  if stability ≥ criteria.stability_days ∧ reps ≥ criteria.min_reps ∧
      avg_quality ≥ criteria.avg_quality then "mastered"
  else if reps = 0 then "new"
  else "learning"

/-! ## Theorems for the claims -/

/-- C7 counterexample: even with every pool empty, `plan_session` can fail.
At the `StrandBalance` whose four percentages are all 0.5 (pre-normalization
weight total 0) with no preference, the `calculate_strand_weights` call at
line 558 — performed before the viability check at line 581 — divides by
zero, so the Python function raises `ZeroDivisionError` instead of returning
the "no materials" plan. -/
theorem empty_catalogue_plan_counterexample :
    plan_session "learner" ⟨0.5, 0.5, 0.5, 0.5, 0, 0⟩ none 20 [] [] [] =
      .error .zeroDivision := by
  have h0 : weight_total ⟨0.5, 0.5, 0.5, 0.5, 0, 0⟩ none = 0 := by
    norm_num [weight_total, blended_weight, system_weight,
      StrandBalance.deviation_from_target, StrandBalance.get_percentage,
      TARGET_STRAND_PERCENTAGE, TOLERANCE_PERCENTAGE, strandList,
      abs_of_nonneg, abs_of_nonpos]
  rw [plan_session, if_pos h0]

/-- C7 (amended): planning over a catalogue where every pool is empty does
not fail or raise, provided the balance and preference give a nonzero
pre-normalization weight total (otherwise the weight normalization, computed
before the viability check, divides by zero): `plan_session` then returns a
plan with an empty exercise list and the explanatory "no materials" note,
for every balance, preference and duration. -/
theorem empty_catalogue_plan (lid : String) (balance : StrandBalance)
    (pref : Preference) (dur : ℚ)
    (h : weight_total balance pref ≠ 0) :
    ∃ plan, plan_session lid balance pref dur [] [] [] = .ok plan ∧
      plan.exercises = [] ∧
      plan.notes = "No materials available for any strand" := by
  rw [plan_session, if_neg h]
  have hv : viable_strands ([] : List Candidate) [] [] = [] := by
    simp [viable_strands, strand_candidates, strandList]
  refine ⟨_, rfl, ?_, ?_⟩ <;> simp [hv]

/-- Witness for C7 at the neutral balance (weight total 4). -/
theorem empty_catalogue_plan_witness :
    ∃ plan, plan_session "learner" ⟨0.25, 0.25, 0.25, 0.25, 0, 0⟩ none 20 [] [] []
        = .ok plan ∧
      plan.exercises = [] ∧
      plan.notes = "No materials available for any strand" :=
  empty_catalogue_plan "learner" ⟨0.25, 0.25, 0.25, 0.25, 0, 0⟩ none 20 (by
    norm_num [weight_total, blended_weight, system_weight,
      StrandBalance.deviation_from_target, StrandBalance.get_percentage,
      TARGET_STRAND_PERCENTAGE, TOLERANCE_PERCENTAGE, strandList,
      abs_of_nonneg, abs_of_nonpos])

/-- C8: whenever the recognized practice seconds total a positive amount, the
four percentages of `get_strand_balance` sum to 1 (hence within 1e-9 of 1);
whenever the total is zero (in particular for an empty history) the result is
exactly the neutral 25%-each balance. -/
theorem balance_normalization (rows : List (String × ℚ)) :
    (0 < total_practice_seconds rows →
      |(get_strand_balance rows).meaning_input +
        (get_strand_balance rows).meaning_output +
        (get_strand_balance rows).language_focused +
        (get_strand_balance rows).fluency - 1| ≤ 1 / 1000000000) ∧
    (total_practice_seconds rows = 0 →
      get_strand_balance rows =
        { meaning_input := 0.25, meaning_output := 0.25,
          language_focused := 0.25, fluency := 0.25,
          total_exercises := 0, total_seconds := 0 }) := by
  constructor
  · intro hpos
    have hne : total_practice_seconds rows ≠ 0 := ne_of_gt hpos
    have hsum : strand_seconds rows .meaning_input + strand_seconds rows .meaning_output +
        strand_seconds rows .language_focused + strand_seconds rows .fluency =
        total_practice_seconds rows := by
      simp [total_practice_seconds, strandList]
      ring
    simp only [get_strand_balance, hne, if_false]
    rw [div_add_div_same, div_add_div_same, div_add_div_same, hsum, div_self hne]
    norm_num
  · intro hz
    simp [get_strand_balance, hz]

/-- C9: the mastery classifier returns "mastered" exactly when stability is at
least 21 days, reps at least 3 and average quality at least 3.5; it returns
"new" whenever reps is 0, and "learning" in every remaining case; in
particular (stability 25, reps 4, avg 4.0) is "mastered" while the same item
with avg 3.0 is "learning". -/
theorem mastery_classification (s : ℚ) (r : ℕ) (a : ℚ) :
    (classify_mastery DEFAULT_MASTERY_CRITERIA s r a = "mastered" ↔
      (21 ≤ s ∧ 3 ≤ r ∧ (3.5 : ℚ) ≤ a)) ∧
    (r = 0 → classify_mastery DEFAULT_MASTERY_CRITERIA s r a = "new") ∧
    (r ≠ 0 → ¬(21 ≤ s ∧ 3 ≤ r ∧ (3.5 : ℚ) ≤ a) →
      classify_mastery DEFAULT_MASTERY_CRITERIA s r a = "learning") ∧
    classify_mastery DEFAULT_MASTERY_CRITERIA 25 4 4 = "mastered" ∧
    classify_mastery DEFAULT_MASTERY_CRITERIA 25 4 3 = "learning" := by
  refine ⟨?_, ?_, ?_, ?_, ?_⟩
  · unfold classify_mastery DEFAULT_MASTERY_CRITERIA
    split_ifs with h1 h2 <;> simp_all
  · intro h0
    subst h0
    simp [classify_mastery, DEFAULT_MASTERY_CRITERIA]
  · intro hr hcond
    unfold classify_mastery DEFAULT_MASTERY_CRITERIA
    split_ifs with h1
    · exact absurd h1 hcond
    · rfl
  · norm_num [classify_mastery, DEFAULT_MASTERY_CRITERIA]
  · norm_num [classify_mastery, DEFAULT_MASTERY_CRITERIA]

/-- Witness for C8 at the one-row history `[("meaning_input", 10)]`. -/
theorem balance_normalization_witness :
    |(get_strand_balance [("meaning_input", 10)]).meaning_input +
      (get_strand_balance [("meaning_input", 10)]).meaning_output +
      (get_strand_balance [("meaning_input", 10)]).language_focused +
      (get_strand_balance [("meaning_input", 10)]).fluency - 1| ≤ 1 / 1000000000 :=
  (balance_normalization [("meaning_input", 10)]).1 (by
    simp [total_practice_seconds, strand_seconds, strandList, strandName,
      List.filter_cons, List.filter_nil])

/-- Witness for C9 at reps = 0. -/
theorem mastery_classification_witness :
    classify_mastery DEFAULT_MASTERY_CRITERIA 5 0 2 = "new" :=
  (mastery_classification 5 0 2).2.1 rfl

/-- C3 counterexample: for the `StrandBalance` whose four percentages are all
0.5 and no learner preference, every tiered weight is `1 + 4·(0.25−0.5) = 0`,
so the pre-normalization total is 0: the source's `(v / total) * 4.0` then
divides by zero (a `ZeroDivisionError` in Python; 0 in the field embedding),
and the returned weights do not sum to 4.0 within 1e-9. -/
theorem weight_normalization_counterexample :
    weight_total ⟨0.5, 0.5, 0.5, 0.5, 0, 0⟩ none = 0 ∧
    ¬ |(strandList.map
        (calculate_strand_weights ⟨0.5, 0.5, 0.5, 0.5, 0, 0⟩ none)).sum - 4|
      ≤ 1 / 1000000000 := by
  have h0 : weight_total ⟨0.5, 0.5, 0.5, 0.5, 0, 0⟩ none = 0 := by
    norm_num [weight_total, blended_weight, system_weight,
      StrandBalance.deviation_from_target, StrandBalance.get_percentage,
      TARGET_STRAND_PERCENTAGE, TOLERANCE_PERCENTAGE, strandList,
      abs_of_nonneg, abs_of_nonpos]
  refine ⟨h0, ?_⟩
  simp only [calculate_strand_weights, h0, div_zero, zero_mul, strandList,
    List.map_cons, List.map_nil, List.sum_cons, List.sum_nil]
  norm_num

/-- C3 (amended): whenever the pre-normalization weight total is nonzero —
which holds in particular for every balance produced by `get_strand_balance`
with no preference — the weights returned by `calculate_strand_weights` sum
to 4.0 (within 1e-9), and under a supplied preference map each listed
strand's weight is the blend `0.7·system + 0.3·preference` divided by the
total and scaled by 4. -/
theorem weight_normalization (balance : StrandBalance) (pref : Preference)
    (h : weight_total balance pref ≠ 0) :
    |(strandList.map (calculate_strand_weights balance pref)).sum - 4|
      ≤ 1 / 1000000000 ∧
    (∀ p u s, pref = some p → p s = some u →
      calculate_strand_weights balance pref s =
        (system_weight balance s * 0.7 + u * 0.3) / weight_total balance pref * 4) := by
  constructor
  · have hsum : (strandList.map (calculate_strand_weights balance pref)).sum =
        weight_total balance pref / weight_total balance pref * 4 := by
      simp only [calculate_strand_weights, weight_total, strandList, List.map_cons,
        List.map_nil, List.sum_cons, List.sum_nil]
      ring
    rw [hsum, div_self h]
    norm_num
  · intro p u s hp hu
    subst hp
    simp [calculate_strand_weights, blended_weight, hu]

/-- Witness for C3 at the neutral balance with no preference. -/
theorem weight_normalization_witness :
    |(strandList.map
      (calculate_strand_weights ⟨0.25, 0.25, 0.25, 0.25, 0, 0⟩ none)).sum - 4|
      ≤ 1 / 1000000000 :=
  (weight_normalization ⟨0.25, 0.25, 0.25, 0.25, 0, 0⟩ none (by
    norm_num [weight_total, blended_weight, system_weight,
      StrandBalance.deviation_from_target, StrandBalance.get_percentage,
      TARGET_STRAND_PERCENTAGE, TOLERANCE_PERCENTAGE, strandList,
      abs_of_nonneg, abs_of_nonpos])).1

/-- Every tiered weight is at least `1 + 4·deviation − 0.2`. -/
theorem system_weight_ge_linear (b : StrandBalance) (s : Strand) :
    1 + 4 * b.deviation_from_target s - 1/5 ≤ system_weight b s := by
  unfold system_weight TOLERANCE_PERCENTAGE
  dsimp only
  split_ifs with h1 h2
  · have := (abs_le.mp h1).2
    linarith
  · have := (abs_le.mp h2).2
    linarith
  · linarith

/-- For a non-positive deviation the tiered weight is at least
`1 + 4·deviation`. -/
theorem system_weight_ge_of_nonpos (b : StrandBalance) (s : Strand)
    (h : b.deviation_from_target s ≤ 0) :
    1 + 4 * b.deviation_from_target s ≤ system_weight b s := by
  unfold system_weight TOLERANCE_PERCENTAGE
  dsimp only
  split_ifs <;> linarith

/-- C10: with no learner preference and a balance whose four percentages lie
in `[0,1]` and sum to 1 (the 25%-each default included), the sum of the
tiered pre-normalization weights is at least 3.4, hence strictly positive, so
the `(v / total) * 4.0` normalization of `calculate_strand_weights` never
divides by zero. -/
theorem weight_total_lower_bound (balance : StrandBalance)
    (_h01 : ∀ s, 0 ≤ balance.get_percentage s ∧ balance.get_percentage s ≤ 1)
    (hsum : balance.meaning_input + balance.meaning_output +
      balance.language_focused + balance.fluency = 1) :
    (3.4 : ℚ) ≤ weight_total balance none ∧ 0 < weight_total balance none := by
  have hW : weight_total balance none =
      system_weight balance .meaning_input + system_weight balance .meaning_output +
      system_weight balance .language_focused + system_weight balance .fluency := by
    simp [weight_total, blended_weight, strandList]
    ring
  have hdev : balance.deviation_from_target .meaning_input +
      balance.deviation_from_target .meaning_output +
      balance.deviation_from_target .language_focused +
      balance.deviation_from_target .fluency = 0 := by
    simp only [StrandBalance.deviation_from_target, StrandBalance.get_percentage,
      TARGET_STRAND_PERCENTAGE]
    linarith
  have key : (3.4 : ℚ) ≤ weight_total balance none := by
    rw [hW]
    rcases le_or_lt (balance.deviation_from_target .meaning_input) 0 with h | h
    · have := system_weight_ge_of_nonpos balance .meaning_input h
      have := system_weight_ge_linear balance .meaning_output
      have := system_weight_ge_linear balance .language_focused
      have := system_weight_ge_linear balance .fluency
      linarith
    rcases le_or_lt (balance.deviation_from_target .meaning_output) 0 with h2 | h2
    · have := system_weight_ge_linear balance .meaning_input
      have := system_weight_ge_of_nonpos balance .meaning_output h2
      have := system_weight_ge_linear balance .language_focused
      have := system_weight_ge_linear balance .fluency
      linarith
    rcases le_or_lt (balance.deviation_from_target .language_focused) 0 with h3 | h3
    · have := system_weight_ge_linear balance .meaning_input
      have := system_weight_ge_linear balance .meaning_output
      have := system_weight_ge_of_nonpos balance .language_focused h3
      have := system_weight_ge_linear balance .fluency
      linarith
    rcases le_or_lt (balance.deviation_from_target .fluency) 0 with h4 | h4
    · have := system_weight_ge_linear balance .meaning_input
      have := system_weight_ge_linear balance .meaning_output
      have := system_weight_ge_linear balance .language_focused
      have := system_weight_ge_of_nonpos balance .fluency h4
      linarith
    · linarith
  exact ⟨key, by linarith⟩

/-- Witness for C10 at the neutral 25%-each balance. -/
theorem weight_total_lower_bound_witness :
    (3.4 : ℚ) ≤ weight_total ⟨0.25, 0.25, 0.25, 0.25, 0, 0⟩ none ∧
    0 < weight_total ⟨0.25, 0.25, 0.25, 0.25, 0, 0⟩ none :=
  weight_total_lower_bound ⟨0.25, 0.25, 0.25, 0.25, 0, 0⟩
    (by intro s; cases s <;> norm_num [StrandBalance.get_percentage])
    (by norm_num)

/-- Sum of a list map of `f · / T * 4` factors through the sum of `f`. -/
theorem sum_map_div_mul (V : List Strand) (w : Strand → ℚ) (T : ℚ) :
    (V.map fun s => w s / T * 4).sum = (V.map w).sum / T * 4 := by
  induction V with
  | nil => simp
  | cons a l ih =>
    simp only [List.map_cons, List.sum_cons, ih]
    ring

/-- Sum of a constant map. -/
theorem sum_map_const_rat (V : List Strand) (c : ℚ) :
    (V.map fun _ => c).sum = V.length * c := by
  induction V with
  | nil => simp
  | cons a l ih =>
    simp only [List.map_cons, List.sum_cons, ih, List.length_cons]
    push_cast
    ring

/-- C4 counterexample: with a frontier holding a single candidate tagged
`language_focused` and empty due/mastered pools, `plan_session`'s viability
check treats `meaning_input` as viable (its pool, the whole frontier, is
non-empty) even though the pool contains no candidate tagged
`meaning_input`; with the neutral balance and a 20-minute budget the strand
is then allocated strictly positive time although its selection yields no
exercise — the viability test does not filter by strand tag as claimed. -/
theorem strand_viability_counterexample :
    Strand.meaning_input ∈
      viable_strands [{ node_id := "n1", primary_strand := some "language_focused" }] [] [] ∧
    ([{ node_id := "n1", primary_strand := some "language_focused" }] :
        List Candidate).filter (fun c => c.primary_strand = some "meaning_input") = [] ∧
    0 < target_time_per_strand
        (calculate_strand_weights ⟨0.25, 0.25, 0.25, 0.25, 0, 0⟩ none)
        (viable_strands [{ node_id := "n1", primary_strand := some "language_focused" }] [] [])
        20 .meaning_input ∧
    select_meaning_input [{ node_id := "n1", primary_strand := some "language_focused" }]
      (target_time_per_strand
        (calculate_strand_weights ⟨0.25, 0.25, 0.25, 0.25, 0, 0⟩ none)
        (viable_strands [{ node_id := "n1", primary_strand := some "language_focused" }] [] [])
        20 .meaning_input) = [] := by
  have hv : viable_strands [{ node_id := "n1", primary_strand := some "language_focused" }] [] []
      = [.meaning_input, .meaning_output, .language_focused] := by
    simp [viable_strands, strand_candidates, strandList]
  have hbw : ∀ u, blended_weight ⟨0.25, 0.25, 0.25, 0.25, 0, 0⟩ none u = 1 := by
    intro u
    cases u <;>
      norm_num [blended_weight, system_weight, StrandBalance.deviation_from_target,
        StrandBalance.get_percentage, TARGET_STRAND_PERCENTAGE, TOLERANCE_PERCENTAGE]
  have hw : ∀ s, calculate_strand_weights ⟨0.25, 0.25, 0.25, 0.25, 0, 0⟩ none s = 1 := by
    intro s
    simp only [calculate_strand_weights, weight_total, strandList, List.map_cons,
      List.map_nil, List.sum_cons, List.sum_nil, hbw]
    norm_num
  refine ⟨?_, ?_, ?_, ?_⟩
  · rw [hv]; simp
  · simp
  · rw [hv]
    simp only [target_time_per_strand, normalized_weights, viable_weight_sum,
      List.map_cons, List.map_nil, List.sum_cons, List.sum_nil, hw]
    norm_num
  · simp [select_meaning_input, greedy_select]

/-- C4 (amended): in `plan_session`, a strand is viable exactly when its
candidate pool (frontier for meaning-input, frontier+due for meaning-output,
due+frontier for language-focused, mastered for fluency, with no filtering by
strand tag) is non-empty; whenever any strand is viable the renormalized
weights sum to 4.0 over the viable strands; and every strand is allocated
`max(0, totalMinutes · weight/4)` minutes (non-viable strands defaulting to
weight 0). -/
theorem strand_viability (frontier due_items mastered : List Candidate)
    (weights : Strand → ℚ) (dur : ℚ)
    (h : viable_strands frontier due_items mastered ≠ []) :
    (∀ s, s ∈ viable_strands frontier due_items mastered ↔
      strand_candidates frontier due_items mastered s ≠ []) ∧
    ((viable_strands frontier due_items mastered).map
      (normalized_weights weights (viable_strands frontier due_items mastered))).sum = 4 ∧
    (∀ s, target_time_per_strand weights (viable_strands frontier due_items mastered) dur s =
      max 0 (dur * (normalized_weights weights
        (viable_strands frontier due_items mastered) s / 4))) := by
  set V := viable_strands frontier due_items mastered with hV
  refine ⟨?_, ?_, fun s => rfl⟩
  · intro s
    have hmem : s ∈ strandList := by cases s <;> simp [strandList]
    simp [hV, viable_strands, List.mem_filter, hmem, List.length_pos]
  · have hmap : V.map (normalized_weights weights V) = V.map (fun s =>
        if viable_weight_sum weights V > 0 then
          weights s / viable_weight_sum weights V * 4
        else 4 / V.length) := by
      apply List.map_congr_left
      intro s hs
      simp [normalized_weights, hs]
    rw [hmap]
    by_cases hpos : viable_weight_sum weights V > 0
    · simp only [if_pos hpos]
      rw [sum_map_div_mul]
      have : (V.map weights).sum = viable_weight_sum weights V := rfl
      rw [this, div_self (ne_of_gt hpos)]
      norm_num
    · simp only [if_neg hpos]
      rw [sum_map_const_rat]
      have hlen0 : V.length ≠ 0 := Nat.pos_iff_ne_zero.mp (List.length_pos.mpr h)
      have hlen : (V.length : ℚ) ≠ 0 := Nat.cast_ne_zero.mpr hlen0
      field_simp
    
/-- Witness for C4 with a one-candidate frontier. -/
theorem strand_viability_witness :
    ((viable_strands [{ node_id := "n1", primary_strand := some "meaning_input" }] [] []).map
      (normalized_weights (fun _ => 1)
        (viable_strands [{ node_id := "n1", primary_strand := some "meaning_input" }] [] []))).sum
      = 4 :=
  (strand_viability [{ node_id := "n1", primary_strand := some "meaning_input" }] [] []
    (fun _ => 1) 20 (by simp [viable_strands, strand_candidates, strandList])).2.1

/-- C5: for any stability, any `now` and any retention target in `(0,1)`
(the source default is 0.9), `calculate_next_review_date` returns exactly
`now + max(1, stability · ln(target)/ln(0.9))`, so the scheduled date is at
least one day after `now`; a retention target outside `(0,1)` is rejected
with an error before any computation. -/
theorem next_due_interval (s now r : ℝ) :
    (0 < r ∧ r < 1 →
      calculate_next_review_date s now r =
        .ok (now + max 1 (s * Real.log r / Real.log 0.9)) ∧
      ∀ x, calculate_next_review_date s now r = .ok x → now + 1 ≤ x) ∧
    (¬(0 < r ∧ r < 1) →
      calculate_next_review_date s now r = .error .invalidRetention) := by
  constructor
  · intro hr
    have heq : calculate_next_review_date s now r =
        .ok (now + max 1 (s * Real.log r / Real.log 0.9)) := by
      rw [calculate_next_review_date, if_pos hr]
      rfl
    refine ⟨heq, fun x hx => ?_⟩
    rw [heq] at hx
    have hx2 : x = now + max 1 (s * Real.log r / Real.log 0.9) := by
      injection hx with h
      exact h.symm
    rw [hx2]
    have := le_max_left 1 (s * Real.log r / Real.log 0.9)
    linarith
  · intro hr
    rw [calculate_next_review_date, if_neg hr]

/-- C6: a quality outside `[0,5]` makes `review_card` fail with the
invalid-quality error before any stability or difficulty computation (the
pure function leaves the card untouched: no updated card is produced), and
an in-range quality is never rejected or clamped: it always yields a result. -/
theorem invalid_quality_rejection (card : ReviewCard) (q : ℤ) (t : ℝ) :
    ((q < 0 ∨ 5 < q) → review_card card q t = .error .invalidQuality) ∧
    (0 ≤ q → q ≤ 5 → ∃ p, review_card card q t = .ok p) := by
  constructor
  · intro h
    rw [review_card, if_neg]
    rcases h with h | h <;> omega
  · intro h0 h5
    rw [review_card, if_pos ⟨h0, h5⟩]
    exact ⟨_, rfl⟩

/-- Witness for C5 at stability 5, now 0, retention 0.9. -/
theorem next_due_interval_witness :
    calculate_next_review_date 5 0 0.9 =
      .ok (0 + max 1 (5 * Real.log 0.9 / Real.log 0.9)) :=
  ((next_due_interval 5 0 0.9).1 (by norm_num)).1

/-- Witness for C6 at quality 6. -/
theorem invalid_quality_rejection_witness :
    review_card { stability := 0, difficulty := 5, reps := 0, last_review := none } 6 0 =
      .error .invalidQuality :=
  (invalid_quality_rejection
    { stability := 0, difficulty := 5, reps := 0, last_review := none } 6 0).1
    (Or.inr (by norm_num))

/-- Clamped retrievability never exceeds 1. -/
theorem retrievability_le_one (e s : ℝ) : calculate_retrievability e s ≤ 1 := by
  unfold calculate_retrievability
  split_ifs
  · norm_num
  · exact max_le (by norm_num) (min_le_left _ _)

/-- Reviewing strictly after the last review (positive elapsed time) leaves
retrievability strictly below 1. -/
theorem retrievability_lt_one (e s : ℝ) (hs : 0 < s) (he : 0 < e) :
    calculate_retrievability e s < 1 := by
  unfold calculate_retrievability
  rw [if_neg (not_le.mpr hs)]
  have hlog : Real.log 0.9 < 0 := Real.log_neg (by norm_num) (by norm_num)
  have harg : Real.log 0.9 * e / s < 0 :=
    div_neg_of_neg_of_pos (mul_neg_of_neg_of_pos hlog he) hs
  have hexp : Real.exp (Real.log 0.9 * e / s) < 1 := by
    rw [← Real.exp_zero]
    exact Real.exp_lt_exp.mpr harg
  exact max_lt (by norm_num) (lt_of_le_of_lt (min_le_right _ _) hexp)

/-- For a successful first review (quality 3-5) the initial stability is
strictly positive. -/
theorem initial_stability_value_pos (q : ℤ) (h3 : 3 ≤ q) (h5 : q ≤ 5) :
    0 < initial_stability_value q := by
  unfold initial_stability_value
  interval_cases q <;> norm_num [W, DEFAULT_W]

/-- Success growth: for quality 3-5, nonnegative stability, difficulty at
most 10 and retrievability at most 1, the updated stability is at least the
current one. -/
theorem update_stability_value_ge (s d : ℝ) (q : ℤ) (R : ℝ) (hq : 3 ≤ q)
    (hs : 0 ≤ s) (hd : d ≤ 10) (hR : R ≤ 1) :
    s ≤ update_stability_value s d q R := by
  unfold update_stability_value
  rw [if_neg (by omega)]
  dsimp only
  have hsf : 0 ≤ (if q = 3 then W 7 else if q = 4 then W 6 else W 5) := by
    split_ifs <;> norm_num [W, DEFAULT_W]
  have h11 : (0:ℝ) ≤ 11 - d := by linarith
  have hrp : 0 ≤ s ^ (-(W 13)) := Real.rpow_nonneg hs _
  have hexp1 : 1 ≤ Real.exp ((1 - R) * W 14) := by
    have hw14 : (0:ℝ) ≤ W 14 := by norm_num [W, DEFAULT_W]
    have harg : 0 ≤ (1 - R) * W 14 := by nlinarith
    nlinarith [Real.add_one_le_exp ((1 - R) * W 14)]
  have hX : 0 ≤ Real.exp (W 15) * (11 - d) * s ^ (-(W 13)) *
      (Real.exp ((1 - R) * W 14) - 1) *
      (if q = 3 then W 7 else if q = 4 then W 6 else W 5) := by
    have h1 : (0:ℝ) ≤ Real.exp (W 15) := le_of_lt (Real.exp_pos _)
    have h2 : 0 ≤ Real.exp ((1 - R) * W 14) - 1 := by linarith
    positivity
  calc s ≤ s * (1 + Real.exp (W 15) * (11 - d) * s ^ (-(W 13)) *
      (Real.exp ((1 - R) * W 14) - 1) *
      (if q = 3 then W 7 else if q = 4 then W 6 else W 5)) := by nlinarith
    _ ≤ _ := le_max_right _ _

/-- Success growth is strict once stability is positive, difficulty lies in
the clamped range and retrievability is strictly below 1. -/
theorem update_stability_value_gt (s d : ℝ) (q : ℤ) (R : ℝ) (hq : 3 ≤ q)
    (hs : 0 < s) (hd : d ≤ 10) (hR : R < 1) :
    s < update_stability_value s d q R := by
  unfold update_stability_value
  rw [if_neg (by omega)]
  dsimp only
  have hsf : 0 < (if q = 3 then W 7 else if q = 4 then W 6 else W 5) := by
    split_ifs <;> norm_num [W, DEFAULT_W]
  have h11 : (0:ℝ) < 11 - d := by linarith
  have hrp : 0 < s ^ (-(W 13)) := Real.rpow_pos_of_pos hs _
  have hexp1 : 1 < Real.exp ((1 - R) * W 14) := by
    have hw14 : (0:ℝ) < W 14 := by norm_num [W, DEFAULT_W]
    have harg : 0 < (1 - R) * W 14 := by nlinarith
    calc (1:ℝ) = Real.exp 0 := Real.exp_zero.symm
      _ < Real.exp ((1 - R) * W 14) := Real.exp_lt_exp.mpr harg
  have hX : 0 < Real.exp (W 15) * (11 - d) * s ^ (-(W 13)) *
      (Real.exp ((1 - R) * W 14) - 1) *
      (if q = 3 then W 7 else if q = 4 then W 6 else W 5) := by
    have h1 : (0:ℝ) < Real.exp (W 15) := Real.exp_pos _
    have h2 : 0 < Real.exp ((1 - R) * W 14) - 1 := by linarith
    positivity
  calc s < s * (1 + Real.exp (W 15) * (11 - d) * s ^ (-(W 13)) *
      (Real.exp ((1 - R) * W 14) - 1) *
      (if q = 3 then W 7 else if q = 4 then W 6 else W 5)) := by nlinarith
    _ ≤ _ := le_max_right _ _

/-- C2 (amended): for every card satisfying the data-model invariants (a
fresh card has stability 0; a reviewed card has positive stability and
difficulty clamped to [1,10]) and every quality in {3,4,5}, `review_card`
succeeds and returns a stability at least the card's previous stability; the
increase is strict whenever the card has been reviewed before and the new
review happens strictly after the recorded last review; and the success-tier
multipliers satisfy hard `w[7]` < good `w[6]` < easy `w[5]`. -/
theorem monotonic_success (card : ReviewCard) (q : ℤ) (t : ℝ)
    (hq3 : 3 ≤ q) (hq5 : q ≤ 5)
    (hnew : card.reps = 0 → card.stability = 0)
    (hold : card.reps ≠ 0 →
      0 < card.stability ∧ 1 ≤ card.difficulty ∧ card.difficulty ≤ 10) :
    ∃ p, review_card card q t = .ok p ∧
      card.stability ≤ p.2.stability ∧
      (∀ lr, card.last_review = some lr → lr < t →
        card.stability < p.2.stability) ∧
      W 7 < W 6 ∧ W 6 < W 5 := by
  have hg : 0 ≤ q ∧ q ≤ 5 := ⟨by omega, hq5⟩
  have horder : W 7 < W 6 ∧ W 6 < W 5 := by
    constructor <;> norm_num [W, DEFAULT_W]
  rw [review_card, if_pos hg]
  by_cases hreps : card.reps = 0
  · refine ⟨_, rfl, ?_, ?_, horder⟩
    · simp only [hreps, if_pos]
      rw [hnew hreps]
      exact le_of_lt (initial_stability_value_pos q hq3 hq5)
    · intro lr hlr hlt
      simp only [hreps, if_pos]
      rw [hnew hreps]
      exact initial_stability_value_pos q hq3 hq5
  · obtain ⟨hs, hd1, hd10⟩ := hold hreps
    refine ⟨_, rfl, ?_, ?_, horder⟩
    · simp only [hreps, if_neg, if_false]
      rcases hlr : card.last_review with _ | lr <;> simp only [hlr]
      · exact update_stability_value_ge _ _ _ _ hq3 (le_of_lt hs) hd10
          (retrievability_le_one _ _)
      · exact update_stability_value_ge _ _ _ _ hq3 (le_of_lt hs) hd10
          (retrievability_le_one _ _)
    · intro lr hlr hlt
      simp only [hreps, if_neg, if_false, hlr]
      have he : 0 < t - lr := by linarith
      exact update_stability_value_gt _ _ _ _ hq3 hs hd10
        (retrievability_lt_one _ _ hs he)

/-- C2 counterexample: a card with stability 1, reps 1 and last review at
time 0, reviewed again at the same instant (elapsed 0, retrievability 1)
with quality 4, keeps stability exactly 1 — the increase claimed strict for
every reps > 0 is not strict here. -/
theorem monotonic_success_counterexample :
    result_stability
      (review_card ⟨1, 5, 1, some 0⟩ 4 0) = 1 ∧
    ¬ ((1:ℝ) < result_stability (review_card ⟨1, 5, 1, some 0⟩ 4 0)) := by
  have hR : calculate_retrievability (0:ℝ) 1 = 1 := by
    norm_num [calculate_retrievability]
  have heq : result_stability (review_card ⟨1, 5, 1, some 0⟩ 4 0) = 1 := by
    rw [review_card, if_pos (by norm_num)]
    simp only [result_stability]
    norm_num [update_stability_value, hR, Real.exp_zero]
  exact ⟨heq, by rw [heq]; exact lt_irrefl 1⟩

/-- Witness for C2: the same card reviewed 2 days after its last review
strictly gains stability. -/
theorem monotonic_success_witness :
    ∃ p, review_card ⟨1, 5, 1, some 0⟩ 4 2 = .ok p ∧ (1:ℝ) < p.2.stability := by
  obtain ⟨p, heq, hge, hstrict, ho⟩ :=
    monotonic_success ⟨1, 5, 1, some 0⟩
      4 2 (by norm_num) (by norm_num)
      (by intro h; exact absurd h one_ne_zero)
      (by intro h; norm_num)
  exact ⟨p, heq, hstrict 0 rfl (by norm_num)⟩

/-- The lapse formula of `update_stability_value` at stability 1 and
difficulty 1 exceeds 1 whenever retrievability is at most 0.1: the
`exp((1-R)·w[14])` surprise factor inflates the lapsed stability. -/
theorem lapse_formula_gt_one (R : ℝ) (hR : R ≤ 1/10) :
    (1:ℝ) < update_stability_value 1 1 1 R := by
  unfold update_stability_value
  rw [if_pos (by norm_num : (1:ℤ) < 3), Real.one_rpow]
  rw [show W 11 = (2.18:ℝ) from rfl, show W 13 = (0.34:ℝ) from rfl,
    show W 14 = (1.26:ℝ) from rfl, show (1:ℝ) + 1 = 2 from by norm_num, mul_one]
  have hlog2 : (0.6931471803:ℝ) < Real.log 2 := Real.log_two_gt_d9
  have h2pow : (1 + 0.34 * Real.log 2 : ℝ) ≤ (2:ℝ) ^ (0.34:ℝ) := by
    rw [Real.rpow_def_of_pos (by norm_num)]
    have := Real.add_one_le_exp (Real.log 2 * 0.34)
    linarith
  have hexp : (1 + (1 - R) * 1.26 : ℝ) ≤ Real.exp ((1 - R) * 1.26) := by
    linarith [Real.add_one_le_exp ((1 - R) * 1.26)]
  have ha : (0.2356:ℝ) ≤ (2:ℝ)^(0.34:ℝ) - 1 := by nlinarith
  have hb : (2.134:ℝ) ≤ Real.exp ((1 - R) * 1.26) := by nlinarith
  have hprod : (0.2356:ℝ) * 2.134 ≤
      ((2:ℝ)^(0.34:ℝ) - 1) * Real.exp ((1 - R) * 1.26) :=
    mul_le_mul ha hb (by norm_num) (by linarith)
  have key : (1:ℝ) < 2.18 * ((2:ℝ)^(0.34:ℝ) - 1) * Real.exp ((1 - R) * 1.26) := by
    nlinarith [hprod]
  exact lt_of_lt_of_le key (le_max_right _ _)

/-- C1: the monotonic-failure property is violated by the code.  A card with
stability 1, difficulty 1 and reps 1, last reviewed at time 0 and failed
(quality 1) 30 days later (retrievability `0.9^30 < 0.1`), comes back with a
stability strictly greater than 1 — a failed review that increases stability,
contradicting both the claim and the source's own comment that failed recalls
decrease stability. -/
theorem monotonic_failure_code_bug :
    (⟨1, 1, 1, some 0⟩ : ReviewCard).stability <
      result_stability (review_card ⟨1, 1, 1, some 0⟩ 1 30) := by
  have hRval : calculate_retrievability (30 : ℝ) 1 = (0.9:ℝ)^(30:ℕ) := by
    rw [calculate_retrievability, if_neg (by norm_num)]
    have h1 : Real.log 0.9 * 30 / 1 = Real.log ((0.9:ℝ)^(30:ℕ)) := by
      rw [Real.log_pow]
      push_cast
      ring
    rw [h1, Real.exp_log (by positivity)]
    have hlt : (0.9:ℝ)^(30:ℕ) < 1 := by
      apply pow_lt_one₀ (by norm_num) (by norm_num) (by norm_num)
    have hpos : (0:ℝ) < (0.9:ℝ)^(30:ℕ) := by positivity
    rw [min_eq_right (le_of_lt hlt), max_eq_right (le_of_lt hpos)]
  rw [review_card, if_pos (by norm_num)]
  norm_num [result_stability, hRval]
  exact lapse_formula_gt_one _ (by norm_num)

end SpanishSRS
